import Mathlib

/-!
Shallow embedding of the appointment lifecycle orchestrator found in
src/src/controllers/appointment.controller.js of the Appointment-Service
repository, with proofs about the claims of its specification.

Modelling conventions:
* A calendar date is a day index (Nat) and a time of day is a count of
  minutes from midnight (Nat).  The JavaScript value built by
  new Date(date + T + time) is modelled as a millisecond timestamp
  toDateTimeMs date time = date * 86400000 + time * 60000 (an Int).
* The several new Date() calls inside one request handler are modelled
  as a single instant nowMs.
* The appointments table is a List Appointment; the SQL SELECT, INSERT
  and UPDATE statements of the controller become List operations.
* BEGIN, COMMIT and ROLLBACK: the try block of each handler is a pure
  body returning Except ErrorCode (new store, payload); the catch branch
  of the handler issues ROLLBACK, which is modelled by returning the
  original store unchanged together with the error.
* External collaborators (patient, doctor, billing, notification
  services) are black boxes; their outcomes are explicit parameters.
  Post-commit best-effort calls only produce log entries, mirroring the
  try/catch + logger.warn wrappers in the source.
-/

namespace AppointmentService

/-- The four appointment status strings of the source
(src/unnamed/part_000, database schema comment). -/
inductive Status where
  | SCHEDULED
  | COMPLETED
  | CANCELLED
  | NO_SHOW
deriving DecidableEq, Repr

/-- The error codes thrown by appointment.controller.js via AppError. -/
inductive ErrorCode where
  | APPOINTMENT_NOT_FOUND
  | PATIENT_NOT_FOUND
  | DOCTOR_NOT_FOUND
  | SERVICE_UNAVAILABLE
  | INVALID_DATE
  | SLOT_CONFLICT
  | INVALID_STATUS
  | ALREADY_CANCELLED
  | MAX_RESCHEDULE_EXCEEDED
  | CUTOFF_TIME_EXCEEDED
deriving DecidableEq, Repr

/-- One row of the appointments table (schema in src/unnamed/part_000):
appointment_id SERIAL PRIMARY KEY, patient_id, doctor_id,
appointment_date DATE, start_time TIME, end_time TIME,
status VARCHAR DEFAULT SCHEDULED, reason TEXT, notes TEXT,
reschedule_count INTEGER DEFAULT 0, version INTEGER DEFAULT 1,
created_at TIMESTAMP, updated_at TIMESTAMP. -/
structure Appointment where
  appointment_id : Nat
  patient_id : Nat
  doctor_id : Nat
  appointment_date : Nat
  start_time : Nat
  end_time : Nat
  status : Status
  reason : Option String
  notes : Option String
  reschedule_count : Nat
  version : Nat
  created_at : Int
  updated_at : Int
deriving DecidableEq, Repr

/-- Millisecond timestamp of new Date(date + T + time): the day index
times the milliseconds per day plus the minutes times 60000. -/
def toDateTimeMs (date time : Nat) : Int :=
  (date : Int) * 86400000 + (time : Int) * 60000

/-- hoursDiff of the source: (dateTime - now) / (1000 * 60 * 60),
computed exactly over the rationals. -/
def hoursDiff (dateTimeMs nowMs : Int) : ℚ :=
  ((dateTimeMs - nowMs : Int) : ℚ) / (1000 * 60 * 60)

/-- The WHERE filter of checkSlotConflict except for the time-overlap
disjunction: same doctor_id, same appointment_date, status NOT IN
(CANCELLED, COMPLETED), and appointment_id different from the excluded
id when one is supplied. -/
def rowFilter (a : Appointment) (doctorId date : Nat) (excl : Option Nat) : Bool :=
  decide (a.doctor_id = doctorId) &&
  decide (a.appointment_date = date) &&
  !decide (a.status = Status.CANCELLED) &&
  !decide (a.status = Status.COMPLETED) &&
  (match excl with
   | some x => !decide (a.appointment_id = x)
   | none => true)

/-- The time condition of the checkSlotConflict SQL, literally:
(start_time < endC AND end_time > startC) OR
(start_time >= startC AND start_time < endC),
where (s, e) is the stored row and (startC, endC) the candidate. -/
def sqlOverlap (s e startC endC : Nat) : Bool :=
  (decide (s < endC) && decide (e > startC)) ||
  (decide (startC ≤ s) && decide (s < endC))

/-- checkSlotConflict of the source (lines 39-65): the query runs over
the whole appointments table and the function returns whether at least
one row matches. -/
def checkSlotConflict (store : List Appointment) (doctorId date startTime endTime : Nat)
    (excl : Option Nat) : Bool :=
  store.any fun a =>
    rowFilter a doctorId date excl && sqlOverlap a.start_time a.end_time startTime endTime

/-- Written from the spec wording of section 4.1 (refinement target, not
from the source): two half-open intervals overlap iff s1 < e2 AND s2 < e1. -/
def specOverlap (s1 e1 s2 e2 : Nat) : Bool :=
  decide (s1 < e2) && decide (s2 < e1)

/-- Written from the spec wording of section 4.1 and claim C3
(refinement target, not from the source): a conflict exists iff some
stored appointment has the same provider and date, a status outside
CANCELLED and COMPLETED, an id different from the excluded one, and a
half-open interval overlapping the candidate. -/
def specHasConflict (store : List Appointment) (doctorId date startTime endTime : Nat)
    (excl : Option Nat) : Bool :=
  store.any fun a =>
    decide (a.doctor_id = doctorId) &&
    decide (a.appointment_date = date) &&
    !decide (a.status = Status.CANCELLED) &&
    !decide (a.status = Status.COMPLETED) &&
    (match excl with
     | some x => !decide (a.appointment_id = x)
     | none => true) &&
    specOverlap a.start_time a.end_time startTime endTime

/-- Refund policy of cancelAppointment (lines 292-299).  The initial
NO_REFUND value of the source is always overwritten because the
if / else if / else chain is total, so it never escapes; it is kept in
the enumeration for fidelity. -/
inductive RefundPolicy where
  | NO_REFUND
  | FULL_REFUND
  | PARTIAL_REFUND
  | CANCELLATION_FEE
deriving DecidableEq, Repr

/-- The refund tier computation of cancelAppointment:
hoursDiff >= 24 gives FULL_REFUND, else hoursDiff >= 6 gives
PARTIAL_REFUND, else CANCELLATION_FEE. -/
def computeRefundPolicy (h : ℚ) : RefundPolicy :=
  if 24 ≤ h then RefundPolicy.FULL_REFUND
  else if 6 ≤ h then RefundPolicy.PARTIAL_REFUND
  else RefundPolicy.CANCELLATION_FEE

/-- SELECT * FROM appointments WHERE appointment_id = id, taking the
row of the result set that the handlers read (rows[0]). -/
def findAppointment (store : List Appointment) (id : Nat) : Option Appointment :=
  store.find? fun a => decide (a.appointment_id = id)

/-- UPDATE appointments SET ... WHERE appointment_id = id: every row
with the given id is rewritten by f. -/
def updateWhereId (store : List Appointment) (id : Nat) (f : Appointment → Appointment) :
    List Appointment :=
  store.map fun a => if a.appointment_id = id then f a else a

/-- Outcome of one synchronous collaborator HTTP call: a 2xx answer, a
404 answer, or any other failure (timeout, non-2xx, connection error). -/
inductive CollabResult where
  | ok
  | notFound
  | failure
deriving DecidableEq, Repr

/-- validatePatient (lines 13-23): 404 becomes PATIENT_NOT_FOUND, any
other axios error becomes SERVICE_UNAVAILABLE. -/
def validatePatient : CollabResult → Except ErrorCode Unit
  | CollabResult.ok => Except.ok ()
  | CollabResult.notFound => Except.error ErrorCode.PATIENT_NOT_FOUND
  | CollabResult.failure => Except.error ErrorCode.SERVICE_UNAVAILABLE

/-- validateDoctor (lines 26-36): 404 becomes DOCTOR_NOT_FOUND, any
other axios error becomes SERVICE_UNAVAILABLE. -/
def validateDoctor : CollabResult → Except ErrorCode Unit
  | CollabResult.ok => Except.ok ()
  | CollabResult.notFound => Except.error ErrorCode.DOCTOR_NOT_FOUND
  | CollabResult.failure => Except.error ErrorCode.SERVICE_UNAVAILABLE

/-- Request body of POST /v1/appointments. -/
structure BookReq where
  patient_id : Nat
  doctor_id : Nat
  appointment_date : Nat
  start_time : Nat
  end_time : Nat
  reason : Option String
  notes : Option String
deriving DecidableEq, Repr

/-- Request body of PUT /v1/appointments/:id/reschedule. -/
structure RescheduleReq where
  appointment_date : Nat
  start_time : Nat
  end_time : Nat
  reason : Option String
deriving DecidableEq, Repr

/-- The try block of bookAppointment (lines 81-136): validate patient
and doctor, reject a non-future start instant, reject a slot conflict,
INSERT the row.  The INSERT names neither version, reschedule_count nor
status defaults beyond SCHEDULED, so the schema defaults
reschedule_count = 0 and version = 1 apply; newId is the SERIAL key the
database assigns. -/
def bookBody (store : List Appointment) (req : BookReq)
    (patientRes doctorRes : CollabResult) (newId : Nat) (nowMs : Int) :
    Except ErrorCode (List Appointment × Appointment) :=
  match validatePatient patientRes with
  | Except.error e => Except.error e
  | Except.ok _ =>
    match validateDoctor doctorRes with
    | Except.error e => Except.error e
    | Except.ok _ =>
      if toDateTimeMs req.appointment_date req.start_time ≤ nowMs then
        Except.error ErrorCode.INVALID_DATE
      else if checkSlotConflict store req.doctor_id req.appointment_date
          req.start_time req.end_time none then
        Except.error ErrorCode.SLOT_CONFLICT
      else
        let a : Appointment :=
          { appointment_id := newId
            patient_id := req.patient_id
            doctor_id := req.doctor_id
            appointment_date := req.appointment_date
            start_time := req.start_time
            end_time := req.end_time
            status := Status.SCHEDULED
            reason := req.reason
            notes := req.notes
            reschedule_count := 0
            version := 1
            created_at := nowMs
            updated_at := nowMs }
        Except.ok (store ++ [a], a)

/-- The SET clause of the reschedule UPDATE (lines 203-213): new date
and times, reschedule_count + 1, a line appended to notes, updated_at
refreshed, version + 1. -/
def rescheduleUpdate (req : RescheduleReq) (nowMs : Int) (a : Appointment) : Appointment :=
  { a with
    appointment_date := req.appointment_date
    start_time := req.start_time
    end_time := req.end_time
    reschedule_count := a.reschedule_count + 1
    notes := some ((a.notes.getD "") ++ "\x0aRescheduled: "
      ++ (req.reason.getD "No reason provided"))
    updated_at := nowMs
    version := a.version + 1 }

/-- The SET clause of the cancel UPDATE (lines 275-283): status
CANCELLED, a line appended to notes, updated_at refreshed; version is
not touched. -/
def cancelUpdate (reason : Option String) (nowMs : Int) (a : Appointment) : Appointment :=
  { a with
    status := Status.CANCELLED
    notes := some ((a.notes.getD "") ++ "\x0aCancelled: "
      ++ (reason.getD "No reason provided"))
    updated_at := nowMs }

/-- The SET clause of the complete UPDATE (lines 365-373): status
COMPLETED, a line appended to notes, updated_at refreshed; version is
not touched. -/
def completeUpdate (notes : Option String) (nowMs : Int) (a : Appointment) : Appointment :=
  { a with
    status := Status.COMPLETED
    notes := some ((a.notes.getD "") ++ "\x0aCompletion notes: "
      ++ (notes.getD "No notes"))
    updated_at := nowMs }

/-- The SET clause of the no-show UPDATE (lines 433-440): only status
NO_SHOW and updated_at. -/
def noShowUpdate (nowMs : Int) (a : Appointment) : Appointment :=
  { a with
    status := Status.NO_SHOW
    updated_at := nowMs }

/-- The try block of rescheduleAppointment (lines 145-217): not-found
check, status check on CANCELLED or COMPLETED only, reschedule-count cap,
1-hour cutoff on the existing time, future check on the new time,
conflict check excluding this id, then the UPDATE that bumps
reschedule_count and version and appends to notes. -/
def rescheduleBody (store : List Appointment) (id : Nat) (req : RescheduleReq)
    (nowMs : Int) : Except ErrorCode (List Appointment × Appointment) :=
  match findAppointment store id with
  | none => Except.error ErrorCode.APPOINTMENT_NOT_FOUND
  | some existing =>
    if existing.status = Status.CANCELLED ∨ existing.status = Status.COMPLETED then
      Except.error ErrorCode.INVALID_STATUS
    else if 2 ≤ existing.reschedule_count then
      Except.error ErrorCode.MAX_RESCHEDULE_EXCEEDED
    else if hoursDiff (toDateTimeMs existing.appointment_date existing.start_time) nowMs < 1 then
      Except.error ErrorCode.CUTOFF_TIME_EXCEEDED
    else if toDateTimeMs req.appointment_date req.start_time ≤ nowMs then
      Except.error ErrorCode.INVALID_DATE
    else if checkSlotConflict store existing.doctor_id req.appointment_date
        req.start_time req.end_time (some id) then
      Except.error ErrorCode.SLOT_CONFLICT
    else
      Except.ok (updateWhereId store id (rescheduleUpdate req nowMs),
        rescheduleUpdate req nowMs existing)

/-- The try block of cancelAppointment (lines 246-299): not-found check,
ALREADY_CANCELLED on a CANCELLED row, INVALID_STATUS on a COMPLETED row,
then the UPDATE that sets status CANCELLED and appends to notes without
touching version, and the refund tier computed from the pre-cancel row. -/
def cancelBody (store : List Appointment) (id : Nat) (reason : Option String)
    (nowMs : Int) : Except ErrorCode (List Appointment × Appointment × RefundPolicy) :=
  match findAppointment store id with
  | none => Except.error ErrorCode.APPOINTMENT_NOT_FOUND
  | some appointment =>
    if appointment.status = Status.CANCELLED then
      Except.error ErrorCode.ALREADY_CANCELLED
    else if appointment.status = Status.COMPLETED then
      Except.error ErrorCode.INVALID_STATUS
    else
      let refund := computeRefundPolicy
        (hoursDiff (toDateTimeMs appointment.appointment_date appointment.start_time) nowMs)
      Except.ok (updateWhereId store id (cancelUpdate reason nowMs),
        cancelUpdate reason nowMs appointment, refund)

/-- The try block of completeAppointment (lines 340-377): not-found
check, INVALID_STATUS whenever the row is not SCHEDULED, then the UPDATE
that sets status COMPLETED and appends the completion notes without
touching version. -/
def completeBody (store : List Appointment) (id : Nat) (notes : Option String)
    (nowMs : Int) : Except ErrorCode (List Appointment × Appointment) :=
  match findAppointment store id with
  | none => Except.error ErrorCode.APPOINTMENT_NOT_FOUND
  | some appointment =>
    if appointment.status = Status.SCHEDULED then
      Except.ok (updateWhereId store id (completeUpdate notes nowMs),
        completeUpdate notes nowMs appointment)
    else
      Except.error ErrorCode.INVALID_STATUS

/-- The try block of markNoShow (lines 409-442): not-found check,
INVALID_STATUS whenever the row is not SCHEDULED, then the UPDATE that
sets only status NO_SHOW and updated_at. -/
def noShowBody (store : List Appointment) (id : Nat) (nowMs : Int) :
    Except ErrorCode (List Appointment × Appointment) :=
  match findAppointment store id with
  | none => Except.error ErrorCode.APPOINTMENT_NOT_FOUND
  | some appointment =>
    if appointment.status = Status.SCHEDULED then
      Except.ok (updateWhereId store id (noShowUpdate nowMs),
        noShowUpdate nowMs appointment)
    else
      Except.error ErrorCode.INVALID_STATUS

/-- Warnings emitted by logger.warn in the post-commit try/catch
wrappers of the handlers. -/
inductive LogEntry where
  | warnNotificationFailed
  | warnBillingFailed
deriving DecidableEq, Repr

/-- sendNotification (lines 67-79): the axios POST is wrapped in
try/catch, a failure is logged with logger.warn and nothing is thrown. -/
def sendNotificationLog (ok : Bool) : List LogEntry :=
  if ok then [] else [LogEntry.warnNotificationFailed]

/-- The try/catch around each axios POST to the billing service
(cancel lines 304-311, complete lines 380-389, no-show lines 445-455):
a failure is logged with logger.warn and nothing is thrown. -/
def billingCallLog (ok : Bool) : List LogEntry :=
  if ok then [] else [LogEntry.warnBillingFailed]

/-- Observable outcome of one HTTP command handler: the appointments
table after the handler returns, the response (success payload or the
AppError passed to next), and the warnings logged after commit. -/
structure CmdResult (α : Type) where
  store : List Appointment
  response : Except ErrorCode α
  log : List LogEntry

/-- bookAppointment (lines 81-143).  A thrown error reaches the catch
branch, which issues ROLLBACK: the table is left as it was.  On the
success path the transaction commits and the notification is
best-effort. -/
def bookAppointment (store : List Appointment) (req : BookReq)
    (patientRes doctorRes : CollabResult) (newId : Nat) (nowMs : Int)
    (notifyOk : Bool) : CmdResult Appointment :=
  match bookBody store req patientRes doctorRes newId nowMs with
  | Except.error e => ⟨store, Except.error e, []⟩
  | Except.ok (s2, a) => ⟨s2, Except.ok a, sendNotificationLog notifyOk⟩

/-- rescheduleAppointment (lines 145-244), with ROLLBACK on error and a
best-effort post-commit notification. -/
def rescheduleAppointment (store : List Appointment) (id : Nat) (req : RescheduleReq)
    (nowMs : Int) (notifyOk : Bool) : CmdResult Appointment :=
  match rescheduleBody store id req nowMs with
  | Except.error e => ⟨store, Except.error e, []⟩
  | Except.ok (s2, a) => ⟨s2, Except.ok a, sendNotificationLog notifyOk⟩

/-- cancelAppointment (lines 246-338), with ROLLBACK on error and two
best-effort post-commit calls: the billing cancellation and the
notification. -/
def cancelAppointment (store : List Appointment) (id : Nat) (reason : Option String)
    (nowMs : Int) (billingOk notifyOk : Bool) : CmdResult (Appointment × RefundPolicy) :=
  match cancelBody store id reason nowMs with
  | Except.error e => ⟨store, Except.error e, []⟩
  | Except.ok (s2, a, rp) =>
    ⟨s2, Except.ok (a, rp), billingCallLog billingOk ++ sendNotificationLog notifyOk⟩

/-- completeAppointment (lines 340-407), with ROLLBACK on error and a
best-effort post-commit billing call. -/
def completeAppointment (store : List Appointment) (id : Nat) (notes : Option String)
    (nowMs : Int) (billingOk : Bool) : CmdResult Appointment :=
  match completeBody store id notes nowMs with
  | Except.error e => ⟨store, Except.error e, []⟩
  | Except.ok (s2, a) => ⟨s2, Except.ok a, billingCallLog billingOk⟩

/-- markNoShow (lines 409-473), with ROLLBACK on error and a
best-effort post-commit billing call for the no-show fee. -/
def markNoShow (store : List Appointment) (id : Nat) (nowMs : Int)
    (billingOk : Bool) : CmdResult Appointment :=
  match noShowBody store id nowMs with
  | Except.error e => ⟨store, Except.error e, []⟩
  | Except.ok (s2, a) => ⟨s2, Except.ok a, billingCallLog billingOk⟩

/-- Which connection a database statement of a handler is sent on: the
dedicated client checked out by pool.connect() at the top of the handler
(the connection holding the BEGIN), or some other connection of the
shared pool reached through pool.query. -/
inductive Conn where
  | txnClient
  | pooled
deriving DecidableEq, Repr

/-- The database statements a write handler issues. -/
inductive DbStmt where
  | beginTxn
  | selectConflict
  | selectById
  | insertAppointment
  | updateAppointment
  | commitTxn
deriving DecidableEq, Repr

/-- One database statement together with the connection it is sent on. -/
structure DbCall where
  conn : Conn
  stmt : DbStmt
deriving DecidableEq, Repr

/-- Database calls of the success path of bookAppointment in source
order: client.query BEGIN (line 84), the conflict SELECT inside
checkSlotConflict issued with pool.query (line 63), client.query INSERT
(line 105), client.query COMMIT (line 114). -/
def bookSuccessDbCalls : List DbCall :=
  [⟨Conn.txnClient, DbStmt.beginTxn⟩,
   ⟨Conn.pooled, DbStmt.selectConflict⟩,
   ⟨Conn.txnClient, DbStmt.insertAppointment⟩,
   ⟨Conn.txnClient, DbStmt.commitTxn⟩]

/-- Database calls of the success path of rescheduleAppointment in
source order: client.query BEGIN (line 148), client.query SELECT by id
(line 154), the conflict SELECT inside checkSlotConflict issued with
pool.query (line 63), client.query UPDATE (line 203), client.query
COMMIT (line 215). -/
def rescheduleSuccessDbCalls : List DbCall :=
  [⟨Conn.txnClient, DbStmt.beginTxn⟩,
   ⟨Conn.txnClient, DbStmt.selectById⟩,
   ⟨Conn.pooled, DbStmt.selectConflict⟩,
   ⟨Conn.txnClient, DbStmt.updateAppointment⟩,
   ⟨Conn.txnClient, DbStmt.commitTxn⟩]

/-- A statement kind runs inside the local transaction of a handler
exactly when every occurrence of it in the handler's call list is sent
on the connection that holds the BEGIN. -/
def runsInTxn (calls : List DbCall) (s : DbStmt) : Bool :=
  calls.all fun c => !decide (c.stmt = s) || decide (c.conn = Conn.txnClient)

/-! Concrete fixtures used by counterexamples and witnesses. -/

/-- A stored SCHEDULED appointment: id 1, patient 10, doctor 7, day 2,
10:00 to 10:30 (minutes 600 to 630). -/
def baseAppointment : Appointment :=
  { appointment_id := 1
    patient_id := 10
    doctor_id := 7
    appointment_date := 2
    start_time := 600
    end_time := 630
    status := Status.SCHEDULED
    reason := none
    notes := none
    reschedule_count := 0
    version := 1
    created_at := 0
    updated_at := 0 }

/-- The same row after a cancellation. -/
def cancelledAppointment : Appointment :=
  { baseAppointment with status := Status.CANCELLED }

/-- The same row after a completion. -/
def completedAppointment : Appointment :=
  { baseAppointment with status := Status.COMPLETED }

/-- The same row after a no-show. -/
def noShowAppointment : Appointment :=
  { baseAppointment with status := Status.NO_SHOW }

/-- A SCHEDULED row that has already been rescheduled twice. -/
def maxRescheduledAppointment : Appointment :=
  { baseAppointment with reschedule_count := 2 }

/-- A stored row with a degenerate time interval (end_time before
start_time).  Nothing in the repository rejects such a row: the Joi
schemas only check the HH:MM shape of each time and the table has no
constraint relating start_time and end_time. -/
def degenerateAppointment : Appointment :=
  { baseAppointment with appointment_date := 100, start_time := 300, end_time := 180 }

/-- A reschedule request moving the appointment to day 3, 10:00-10:30. -/
def sampleRescheduleReq : RescheduleReq :=
  { appointment_date := 3
    start_time := 600
    end_time := 630
    reason := none }

/-- A booking request for patient 10 with doctor 7 on day 2,
10:45-11:15. -/
def sampleBookReq : BookReq :=
  { patient_id := 10
    doctor_id := 7
    appointment_date := 2
    start_time := 645
    end_time := 675
    reason := none
    notes := none }

/-! Theorems about the claims. -/

/-- On a stored row whose interval is non-degenerate, the literal SQL
time condition of checkSlotConflict agrees with the half-open overlap
rule of the specification. -/
lemma sqlOverlap_eq_specOverlap (s e startC endC : Nat) (h : s < e) :
    sqlOverlap s e startC endC = specOverlap s e startC endC := by
  unfold sqlOverlap specOverlap
  by_cases h1 : s < endC <;> by_cases h2 : startC < e <;> by_cases h3 : startC ≤ s <;>
    simp_all <;> omega

/-- C3 fails as stated: over an arbitrary stored table the SQL
condition of checkSlotConflict is not equivalent to the half-open rule.
With candidate interval [240, 360) (so endTime > startTime as the claim
requires) and a stored row with start_time 300 and end_time 180, the
second SQL disjunct (start_time >= 240 AND start_time < 360) fires and
checkSlotConflict reports a conflict, while the claimed rule
s1 < endTime AND startTime < e1 is false because 240 < 180 fails. -/
theorem C3_counterexample :
    checkSlotConflict [degenerateAppointment] 7 100 240 360 none = true ∧
    specHasConflict [degenerateAppointment] 7 100 240 360 none = false ∧
    240 < 360 := by
  decide

/-- C3 amended: when every stored appointment has end_time greater than
start_time, checkSlotConflict returns true exactly when some stored
appointment of the same doctor and date, with status outside CANCELLED
and COMPLETED (so a NO_SHOW row still blocks the slot) and id different
from the excluded one, overlaps the candidate per the half-open rule
s1 < endTime AND startTime < e1.  Adjacent intervals sharing only an
endpoint therefore do not conflict. -/
theorem C3_amended (store : List Appointment) (doctorId date startTime endTime : Nat)
    (excl : Option Nat) (hcand : startTime < endTime)
    (hwf : ∀ a ∈ store, a.start_time < a.end_time) :
    checkSlotConflict store doctorId date startTime endTime excl =
      specHasConflict store doctorId date startTime endTime excl := by
  clear hcand
  unfold checkSlotConflict specHasConflict
  induction store with
  | nil => rfl
  | cons a t ih =>
    have ha : a.start_time < a.end_time := hwf a (List.mem_cons_self a t)
    have ht : ∀ b ∈ t, b.start_time < b.end_time := fun b hb =>
      hwf b (List.mem_cons_of_mem a hb)
    simp only [List.any_cons, ih ht, sqlOverlap_eq_specOverlap _ _ _ _ ha]
    unfold rowFilter
    ac_rfl

/-- Witness for C3_amended at a concrete store: the candidate 10:15 to
10:45 overlaps the stored 10:00 to 10:30 row under both definitions,
and the adjacent candidate 10:30 to 11:00 conflicts under neither. -/
theorem C3_witness :
    checkSlotConflict [baseAppointment] 7 2 615 645 none =
      specHasConflict [baseAppointment] 7 2 615 645 none ∧
    checkSlotConflict [baseAppointment] 7 2 615 645 none = true ∧
    checkSlotConflict [baseAppointment] 7 2 630 660 none =
      specHasConflict [baseAppointment] 7 2 630 660 none ∧
    checkSlotConflict [baseAppointment] 7 2 630 660 none = false :=
  ⟨C3_amended [baseAppointment] 7 2 615 645 none (by decide) (by decide),
   by decide,
   C3_amended [baseAppointment] 7 2 630 660 none (by decide) (by decide),
   by decide⟩

/-- C4 fails as stated: on the success path of both book and
reschedule, the slot-conflict SELECT is issued through pool.query, that
is on a connection of the shared pool, while BEGIN and the INSERT or
UPDATE run on the dedicated client connection, so the conflict check
does not execute inside the local transaction. -/
theorem C4_counterexample :
    runsInTxn bookSuccessDbCalls DbStmt.selectConflict = false ∧
    runsInTxn bookSuccessDbCalls DbStmt.insertAppointment = true ∧
    runsInTxn rescheduleSuccessDbCalls DbStmt.selectConflict = false ∧
    runsInTxn rescheduleSuccessDbCalls DbStmt.updateAppointment = true := by
  decide

/-- C4 amended: in both the book and the reschedule handler every
conflict-check SELECT runs on a pooled connection outside the local
transaction, and every other database statement of the success path
(BEGIN, SELECT by id, INSERT, UPDATE, COMMIT) runs on the dedicated
transaction client; check-then-act is therefore backstopped only by the
uniqueness constraint on (doctor_id, appointment_date, start_time) from
the schema, not by the transaction. -/
theorem C4_amended :
    (∀ c ∈ bookSuccessDbCalls, c.stmt = DbStmt.selectConflict → c.conn = Conn.pooled) ∧
    (∀ c ∈ bookSuccessDbCalls, c.stmt ≠ DbStmt.selectConflict → c.conn = Conn.txnClient) ∧
    (∀ c ∈ rescheduleSuccessDbCalls, c.stmt = DbStmt.selectConflict → c.conn = Conn.pooled) ∧
    (∀ c ∈ rescheduleSuccessDbCalls, c.stmt ≠ DbStmt.selectConflict → c.conn = Conn.txnClient) ∧
    DbCall.mk Conn.pooled DbStmt.selectConflict ∈ bookSuccessDbCalls ∧
    DbCall.mk Conn.txnClient DbStmt.insertAppointment ∈ bookSuccessDbCalls := by
  decide

/-- Witness for C4_amended applied to the conflict SELECT of the book
handler. -/
theorem C4_witness :
    (DbCall.mk Conn.pooled DbStmt.selectConflict).conn = Conn.pooled :=
  C4_amended.1 (DbCall.mk Conn.pooled DbStmt.selectConflict) (by decide) rfl

/-- C5 confirmed: the refund tier computed at cancellation is the
claimed step function of diffHours = (appointmentDateTime - now) / hour:
at least 24 hours gives FULL_REFUND, at least 6 but under 24 gives
PARTIAL_REFUND, under 6 (including every past appointment, whose diff is
not positive) gives CANCELLATION_FEE; and a successful cancelBody
returns exactly this tier evaluated on the pre-cancellation appointment
time. -/
theorem C5_refund_step (aptMs nowMs : Int) :
    (24 ≤ hoursDiff aptMs nowMs →
      computeRefundPolicy (hoursDiff aptMs nowMs) = RefundPolicy.FULL_REFUND) ∧
    (6 ≤ hoursDiff aptMs nowMs → hoursDiff aptMs nowMs < 24 →
      computeRefundPolicy (hoursDiff aptMs nowMs) = RefundPolicy.PARTIAL_REFUND) ∧
    (hoursDiff aptMs nowMs < 6 →
      computeRefundPolicy (hoursDiff aptMs nowMs) = RefundPolicy.CANCELLATION_FEE) ∧
    (aptMs ≤ nowMs →
      computeRefundPolicy (hoursDiff aptMs nowMs) = RefundPolicy.CANCELLATION_FEE) ∧
    (∀ store id reason s2 a rp, cancelBody store id reason nowMs = Except.ok (s2, a, rp) →
      ∃ a0, findAppointment store id = some a0 ∧
        rp = computeRefundPolicy
          (hoursDiff (toDateTimeMs a0.appointment_date a0.start_time) nowMs)) := by
  refine ⟨fun h => ?_, fun h1 h2 => ?_, fun h => ?_, fun h => ?_, ?_⟩
  · simp [computeRefundPolicy, h]
  · simp [computeRefundPolicy, h1]
    exact h2
  · unfold computeRefundPolicy
    rw [if_neg (by linarith), if_neg (by linarith)]
  · have hle : hoursDiff aptMs nowMs ≤ 0 := by
      unfold hoursDiff
      apply div_nonpos_of_nonpos_of_nonneg
      · exact_mod_cast sub_nonpos_of_le (by exact_mod_cast h)
      · norm_num
    unfold computeRefundPolicy
    rw [if_neg (by linarith), if_neg (by linarith)]
  · intro store id reason s2 a rp hok
    unfold cancelBody at hok
    cases hfind : findAppointment store id with
    | none => simp [hfind] at hok
    | some a0 =>
      refine ⟨a0, rfl, ?_⟩
      simp only [hfind] at hok
      by_cases hc : a0.status = Status.CANCELLED
      · simp [hc] at hok
      · by_cases hc2 : a0.status = Status.COMPLETED
        · simp [hc, hc2] at hok
        · simp [hc, hc2] at hok
          exact hok.2.2.symm

/-- Witness for C5_refund_step at the boundary instants named by the
spec: diffHours of exactly 24.0 gives FULL_REFUND, 23.999 and exactly
6.0 give PARTIAL_REFUND, 5.999 gives CANCELLATION_FEE, and a past
appointment (negative diff) gives CANCELLATION_FEE. -/
theorem C5_witness :
    computeRefundPolicy (hoursDiff 86400000 0) = RefundPolicy.FULL_REFUND ∧
    computeRefundPolicy (hoursDiff 86396400 0) = RefundPolicy.PARTIAL_REFUND ∧
    computeRefundPolicy (hoursDiff 21600000 0) = RefundPolicy.PARTIAL_REFUND ∧
    computeRefundPolicy (hoursDiff 21596400 0) = RefundPolicy.CANCELLATION_FEE ∧
    computeRefundPolicy (hoursDiff 0 3600000) = RefundPolicy.CANCELLATION_FEE :=
  ⟨(C5_refund_step 86400000 0).1 (by norm_num [hoursDiff]),
   (C5_refund_step 86396400 0).2.1 (by norm_num [hoursDiff]) (by norm_num [hoursDiff]),
   (C5_refund_step 21600000 0).2.1 (by norm_num [hoursDiff]) (by norm_num [hoursDiff]),
   (C5_refund_step 21596400 0).2.2.1 (by norm_num [hoursDiff]),
   (C5_refund_step 0 3600000).2.2.2.1 (by norm_num)⟩

/-- C6 confirmed: a reschedule of a SCHEDULED appointment whose
reschedule_count has reached 2 fails with MAX_RESCHEDULE_EXCEEDED for
every clock value and every requested new time, because the count check
precedes the cutoff, future and conflict checks; and every successful
reschedule returns a row whose reschedule_count is at most 2, since
success requires the old count to be below 2 and adds exactly 1. -/
theorem C6_max_reschedule :
    (∀ store id req nowMs a, findAppointment store id = some a →
      a.status = Status.SCHEDULED → 2 ≤ a.reschedule_count →
      rescheduleBody store id req nowMs = Except.error ErrorCode.MAX_RESCHEDULE_EXCEEDED) ∧
    (∀ store id req nowMs s2 a2, rescheduleBody store id req nowMs = Except.ok (s2, a2) →
      a2.reschedule_count ≤ 2) := by
  constructor
  · intro store id req nowMs a hfind hstat hcnt
    simp [rescheduleBody, hfind, hstat, hcnt]
  · intro store id req nowMs s2 a2 hok
    unfold rescheduleBody at hok
    cases hfind : findAppointment store id with
    | none => simp [hfind] at hok
    | some a =>
      simp only [hfind] at hok
      by_cases h1 : a.status = Status.CANCELLED ∨ a.status = Status.COMPLETED
      · simp [h1] at hok
      · rw [if_neg h1] at hok
        by_cases h2 : 2 ≤ a.reschedule_count
        · simp [h2] at hok
        · rw [if_neg h2] at hok
          by_cases h3 : hoursDiff (toDateTimeMs a.appointment_date a.start_time) nowMs < 1
          · simp [h3] at hok
          · rw [if_neg h3] at hok
            by_cases h4 : toDateTimeMs req.appointment_date req.start_time ≤ nowMs
            · simp [h4] at hok
            · rw [if_neg h4] at hok
              by_cases h5 : checkSlotConflict store a.doctor_id req.appointment_date
                  req.start_time req.end_time (some id) = true
              · simp [h5] at hok
              · simp only [h5] at hok
                simp at hok
                rw [← hok.2]
                simp [rescheduleUpdate]
                omega

/-- Witness for C6_max_reschedule: the twice-rescheduled fixture is
rejected with MAX_RESCHEDULE_EXCEEDED at an instant when the 1-hour
cutoff is also violated (now equal to the appointment time), and a
successful reschedule of the fresh fixture yields a count of at most 2. -/
theorem C6_witness :
    rescheduleBody [maxRescheduledAppointment] 1 sampleRescheduleReq 208800000 =
      Except.error ErrorCode.MAX_RESCHEDULE_EXCEEDED ∧
    (rescheduleUpdate sampleRescheduleReq 0 baseAppointment).reschedule_count ≤ 2 :=
  ⟨C6_max_reschedule.1 [maxRescheduledAppointment] 1 sampleRescheduleReq 208800000
      maxRescheduledAppointment rfl rfl (by decide),
   C6_max_reschedule.2 [baseAppointment] 1 sampleRescheduleReq 0
      (updateWhereId [baseAppointment] 1 (rescheduleUpdate sampleRescheduleReq 0))
      (rescheduleUpdate sampleRescheduleReq 0 baseAppointment)
      (by
        norm_num [rescheduleBody, findAppointment, baseAppointment, hoursDiff, toDateTimeMs,
          checkSlotConflict, rowFilter, sqlOverlap, sampleRescheduleReq]
        rintro (h | h) <;> simp at h)⟩

/-- C7 confirmed: for a SCHEDULED appointment with reschedule_count
below 2, a reschedule fails with CUTOFF_TIME_EXCEEDED exactly when the
current (pre-reschedule) appointment time is less than 1 hour away from
now; the requested new time plays no part in the cutoff test, and when
at least 1 hour remains the cutoff error cannot occur. -/
theorem C7_cutoff (store : List Appointment) (id : Nat) (req : RescheduleReq)
    (nowMs : Int) (a : Appointment) (hfind : findAppointment store id = some a)
    (hstat : a.status = Status.SCHEDULED) (hcnt : a.reschedule_count < 2) :
    rescheduleBody store id req nowMs = Except.error ErrorCode.CUTOFF_TIME_EXCEEDED ↔
      hoursDiff (toDateTimeMs a.appointment_date a.start_time) nowMs < 1 := by
  simp only [rescheduleBody, hfind]
  have h1 : ¬(a.status = Status.CANCELLED ∨ a.status = Status.COMPLETED) := by
    simp [hstat]
  have h2 : ¬(2 ≤ a.reschedule_count) := by omega
  rw [if_neg h1, if_neg h2]
  by_cases h3 : hoursDiff (toDateTimeMs a.appointment_date a.start_time) nowMs < 1
  · simp [h3]
  · rw [if_neg h3]
    simp only [h3, iff_false]
    split
    · simp
    · split <;> simp

/-- Witness for C7_cutoff: at the very instant of the appointment the
cutoff is violated and the reschedule is rejected with
CUTOFF_TIME_EXCEEDED, even though the requested new time lies a full
day in the future. -/
theorem C7_witness :
    rescheduleBody [baseAppointment] 1 sampleRescheduleReq 208800000 =
      Except.error ErrorCode.CUTOFF_TIME_EXCEEDED :=
  (C7_cutoff [baseAppointment] 1 sampleRescheduleReq 208800000 baseAppointment
      rfl rfl (by decide)).mpr
    (by norm_num [hoursDiff, toDateTimeMs, baseAppointment])

/-- C1 fails as stated: the second cancel of an already-CANCELLED
appointment is rejected with the distinct error code ALREADY_CANCELLED
(line 267 of the controller), not with INVALID_STATUS as the claim
requires. -/
theorem C1_counterexample :
    cancelBody [cancelledAppointment] 1 none 0 = Except.error ErrorCode.ALREADY_CANCELLED ∧
    ErrorCode.ALREADY_CANCELLED ≠ ErrorCode.INVALID_STATUS := by
  constructor
  · rfl
  · decide

/-- C1 amended: for CANCELLED or COMPLETED appointments reschedule
fails with INVALID_STATUS; cancel fails with ALREADY_CANCELLED on a
CANCELLED row and with INVALID_STATUS on a COMPLETED row; complete and
no-show fail with INVALID_STATUS from every non-SCHEDULED status.  The
terminal status NO_SHOW is however not rejected by reschedule or
cancel: reschedule of a NO_SHOW row never reports INVALID_STATUS, and
cancel of a NO_SHOW row outright succeeds, moving it to CANCELLED. -/
theorem C1_amended (store : List Appointment) (id : Nat) (req : RescheduleReq)
    (reason notes : Option String) (nowMs : Int) (a : Appointment)
    (hfind : findAppointment store id = some a) :
    ((a.status = Status.CANCELLED ∨ a.status = Status.COMPLETED) →
      rescheduleBody store id req nowMs = Except.error ErrorCode.INVALID_STATUS) ∧
    (a.status = Status.CANCELLED →
      cancelBody store id reason nowMs = Except.error ErrorCode.ALREADY_CANCELLED) ∧
    (a.status = Status.COMPLETED →
      cancelBody store id reason nowMs = Except.error ErrorCode.INVALID_STATUS) ∧
    (a.status ≠ Status.SCHEDULED →
      completeBody store id notes nowMs = Except.error ErrorCode.INVALID_STATUS) ∧
    (a.status ≠ Status.SCHEDULED →
      noShowBody store id nowMs = Except.error ErrorCode.INVALID_STATUS) ∧
    (a.status = Status.NO_SHOW →
      rescheduleBody store id req nowMs ≠ Except.error ErrorCode.INVALID_STATUS) ∧
    (a.status = Status.NO_SHOW →
      cancelBody store id reason nowMs =
        Except.ok (updateWhereId store id (cancelUpdate reason nowMs),
          cancelUpdate reason nowMs a,
          computeRefundPolicy
            (hoursDiff (toDateTimeMs a.appointment_date a.start_time) nowMs))) := by
  refine ⟨?_, ?_, ?_, ?_, ?_, ?_, ?_⟩
  · intro h
    simp only [rescheduleBody, hfind]
    rw [if_pos h]
  · intro h
    simp [cancelBody, hfind, h]
  · intro h
    simp [cancelBody, hfind, h]
  · intro h
    simp [completeBody, hfind, h]
  · intro h
    simp [noShowBody, hfind, h]
  · intro h
    simp only [rescheduleBody, hfind, h]
    rw [if_neg (by simp)]
    split
    · simp
    · split
      · simp
      · split
        · simp
        · split <;> simp
  · intro h
    simp [cancelBody, hfind, h]

/-- Witness for C1_amended on the concrete fixtures of every terminal
status, including the NO_SHOW row that reschedule does not reject with
INVALID_STATUS and that cancel moves to CANCELLED. -/
theorem C1_witness :
    rescheduleBody [cancelledAppointment] 1 sampleRescheduleReq 0 =
      Except.error ErrorCode.INVALID_STATUS ∧
    cancelBody [completedAppointment] 1 none 0 = Except.error ErrorCode.INVALID_STATUS ∧
    completeBody [noShowAppointment] 1 none 0 = Except.error ErrorCode.INVALID_STATUS ∧
    noShowBody [completedAppointment] 1 0 = Except.error ErrorCode.INVALID_STATUS ∧
    rescheduleBody [noShowAppointment] 1 sampleRescheduleReq 0 ≠
      Except.error ErrorCode.INVALID_STATUS ∧
    cancelBody [noShowAppointment] 1 none 0 =
      Except.ok (updateWhereId [noShowAppointment] 1 (cancelUpdate none 0),
        cancelUpdate none 0 noShowAppointment,
        computeRefundPolicy
          (hoursDiff (toDateTimeMs noShowAppointment.appointment_date
            noShowAppointment.start_time) 0)) :=
  ⟨(C1_amended [cancelledAppointment] 1 sampleRescheduleReq none none 0
      cancelledAppointment rfl).1 (Or.inl rfl),
   (C1_amended [completedAppointment] 1 sampleRescheduleReq none none 0
      completedAppointment rfl).2.2.1 rfl,
   (C1_amended [noShowAppointment] 1 sampleRescheduleReq none none 0
      noShowAppointment rfl).2.2.2.1 (by decide),
   (C1_amended [completedAppointment] 1 sampleRescheduleReq none none 0
      completedAppointment rfl).2.2.2.2.1 (by decide),
   (C1_amended [noShowAppointment] 1 sampleRescheduleReq none none 0
      noShowAppointment rfl).2.2.2.2.2.1 rfl,
   (C1_amended [noShowAppointment] 1 sampleRescheduleReq none none 0
      noShowAppointment rfl).2.2.2.2.2.2 rfl⟩

/-- C2 fails as stated: a cancel of the SCHEDULED fixture is accepted,
yet the UPDATE of cancelAppointment does not touch version, so the
mutated row keeps version 1 instead of moving to 2. -/
theorem C2_counterexample :
    cancelBody [baseAppointment] 1 none 0 =
      Except.ok (updateWhereId [baseAppointment] 1 (cancelUpdate none 0),
        cancelUpdate none 0 baseAppointment,
        computeRefundPolicy (hoursDiff (toDateTimeMs 2 600) 0)) ∧
    (cancelUpdate none 0 baseAppointment).version = 1 ∧
    baseAppointment.version = 1 := by
  refine ⟨rfl, rfl, rfl⟩

/-- C2 amended: creation sets version = 1 (the schema default, since
the INSERT of bookAppointment does not name the column), an accepted
reschedule increments version by exactly 1, and accepted cancel,
complete and no-show mutations leave version unchanged. -/
theorem C2_amended :
    (∀ store req p d newId nowMs s2 a,
      bookBody store req p d newId nowMs = Except.ok (s2, a) → a.version = 1) ∧
    (∀ store id req nowMs a s2 a2, findAppointment store id = some a →
      rescheduleBody store id req nowMs = Except.ok (s2, a2) → a2.version = a.version + 1) ∧
    (∀ store id reason nowMs a s2 a2 rp, findAppointment store id = some a →
      cancelBody store id reason nowMs = Except.ok (s2, a2, rp) → a2.version = a.version) ∧
    (∀ store id notes nowMs a s2 a2, findAppointment store id = some a →
      completeBody store id notes nowMs = Except.ok (s2, a2) → a2.version = a.version) ∧
    (∀ store id nowMs a s2 a2, findAppointment store id = some a →
      noShowBody store id nowMs = Except.ok (s2, a2) → a2.version = a.version) := by
  refine ⟨?_, ?_, ?_, ?_, ?_⟩
  · intro store req p d newId nowMs s2 a hok
    unfold bookBody at hok
    cases p <;> cases d <;> simp only [validatePatient, validateDoctor] at hok <;>
      try exact absurd hok (by simp)
    split at hok
    · simp at hok
    · split at hok
      · simp at hok
      · simp at hok
        rw [← hok.2]
  · intro store id req nowMs a s2 a2 hfind hok
    simp only [rescheduleBody, hfind] at hok
    split at hok
    · simp at hok
    · split at hok
      · simp at hok
      · split at hok
        · simp at hok
        · split at hok
          · simp at hok
          · split at hok
            · simp at hok
            · simp at hok
              rw [← hok.2, rescheduleUpdate]
  · intro store id reason nowMs a s2 a2 rp hfind hok
    simp only [cancelBody, hfind] at hok
    split at hok
    · simp at hok
    · split at hok
      · simp at hok
      · simp at hok
        rw [← hok.2.1, cancelUpdate]
  · intro store id notes nowMs a s2 a2 hfind hok
    simp only [completeBody, hfind] at hok
    split at hok
    · simp at hok
      rw [← hok.2, completeUpdate]
    · simp at hok
  · intro store id nowMs a s2 a2 hfind hok
    simp only [noShowBody, hfind] at hok
    split at hok
    · simp at hok
      rw [← hok.2, noShowUpdate]
    · simp at hok

/-- Witness for C2_amended on concrete accepted mutations of every
kind: the booked row carries version 1, the rescheduled fixture moves
from version 1 to 2, and the cancelled, completed and no-show fixtures
keep version 1. -/
theorem C2_witness :
    ({ appointment_id := 5, patient_id := 10, doctor_id := 7, appointment_date := 2,
       start_time := 645, end_time := 675, status := Status.SCHEDULED, reason := none,
       notes := none, reschedule_count := 0, version := 1, created_at := 0,
       updated_at := 0 } : Appointment).version = 1 ∧
    (rescheduleUpdate sampleRescheduleReq 0 baseAppointment).version =
      baseAppointment.version + 1 ∧
    (cancelUpdate none 0 baseAppointment).version = baseAppointment.version ∧
    (completeUpdate none 0 baseAppointment).version = baseAppointment.version ∧
    (noShowUpdate 0 baseAppointment).version = baseAppointment.version :=
  ⟨C2_amended.1 [] sampleBookReq CollabResult.ok CollabResult.ok 5 0 _ _ rfl,
   C2_amended.2.1 [baseAppointment] 1 sampleRescheduleReq 0 baseAppointment _ _ rfl
     (by
       norm_num [rescheduleBody, findAppointment, baseAppointment, hoursDiff, toDateTimeMs,
         checkSlotConflict, rowFilter, sqlOverlap, sampleRescheduleReq]
       rw [if_neg (by simp)]),
   C2_amended.2.2.1 [baseAppointment] 1 none 0 baseAppointment _ _ _ rfl rfl,
   C2_amended.2.2.2.1 [baseAppointment] 1 none 0 baseAppointment _ _ rfl rfl,
   C2_amended.2.2.2.2 [baseAppointment] 1 0 baseAppointment _ _ rfl rfl⟩

/-- C8 confirmed: for every command, whenever the handler answers with
an error, the catch branch has rolled the transaction back, so the
stored table is exactly the one from before the command, and no success
payload accompanies the failure; the specific error kind is the one in
the response. -/
theorem C8_rollback :
    (∀ store req p d newId nowMs n e,
      (bookAppointment store req p d newId nowMs n).response = Except.error e →
      (bookAppointment store req p d newId nowMs n).store = store ∧
      ∀ pay, (bookAppointment store req p d newId nowMs n).response ≠ Except.ok pay) ∧
    (∀ store id req nowMs n e,
      (rescheduleAppointment store id req nowMs n).response = Except.error e →
      (rescheduleAppointment store id req nowMs n).store = store ∧
      ∀ pay, (rescheduleAppointment store id req nowMs n).response ≠ Except.ok pay) ∧
    (∀ store id reason nowMs b n e,
      (cancelAppointment store id reason nowMs b n).response = Except.error e →
      (cancelAppointment store id reason nowMs b n).store = store ∧
      ∀ pay, (cancelAppointment store id reason nowMs b n).response ≠ Except.ok pay) ∧
    (∀ store id notes nowMs b e,
      (completeAppointment store id notes nowMs b).response = Except.error e →
      (completeAppointment store id notes nowMs b).store = store ∧
      ∀ pay, (completeAppointment store id notes nowMs b).response ≠ Except.ok pay) ∧
    (∀ store id nowMs b e,
      (markNoShow store id nowMs b).response = Except.error e →
      (markNoShow store id nowMs b).store = store ∧
      ∀ pay, (markNoShow store id nowMs b).response ≠ Except.ok pay) := by
  refine ⟨?_, ?_, ?_, ?_, ?_⟩
  · intro store req p d newId nowMs n e h
    unfold bookAppointment at h ⊢
    cases hb : bookBody store req p d newId nowMs with
    | error e2 => simp [hb]
    | ok v =>
      obtain ⟨s2, a⟩ := v
      rw [hb] at h
      simp at h
  · intro store id req nowMs n e h
    unfold rescheduleAppointment at h ⊢
    cases hb : rescheduleBody store id req nowMs with
    | error e2 => simp [hb]
    | ok v =>
      obtain ⟨s2, a⟩ := v
      rw [hb] at h
      simp at h
  · intro store id reason nowMs b n e h
    unfold cancelAppointment at h ⊢
    cases hb : cancelBody store id reason nowMs with
    | error e2 => simp [hb]
    | ok v =>
      obtain ⟨s2, a, rp⟩ := v
      rw [hb] at h
      simp at h
  · intro store id notes nowMs b e h
    unfold completeAppointment at h ⊢
    cases hb : completeBody store id notes nowMs with
    | error e2 => simp [hb]
    | ok v =>
      obtain ⟨s2, a⟩ := v
      rw [hb] at h
      simp at h
  · intro store id nowMs b e h
    unfold markNoShow at h ⊢
    cases hb : noShowBody store id nowMs with
    | error e2 => simp [hb]
    | ok v =>
      obtain ⟨s2, a⟩ := v
      rw [hb] at h
      simp at h

/-- Witness for C8_rollback: cancelling a missing appointment fails
with APPOINTMENT_NOT_FOUND and leaves the empty table unchanged. -/
theorem C8_witness :
    (cancelAppointment [] 1 none 0 true true).store = ([] : List Appointment) :=
  (C8_rollback.2.2.1 [] 1 none 0 true true ErrorCode.APPOINTMENT_NOT_FOUND rfl).1

/-- C9 confirmed: the outcome of every post-commit best-effort
collaborator call (notification dispatch, billing trigger) changes
neither the stored table nor the response of any command, and when such
a call fails after a locally successful command the corresponding
warning is logged. -/
theorem C9_post_commit :
    (∀ store req p d newId nowMs n n2,
      (bookAppointment store req p d newId nowMs n).store =
        (bookAppointment store req p d newId nowMs n2).store ∧
      (bookAppointment store req p d newId nowMs n).response =
        (bookAppointment store req p d newId nowMs n2).response) ∧
    (∀ store id req nowMs n n2,
      (rescheduleAppointment store id req nowMs n).store =
        (rescheduleAppointment store id req nowMs n2).store ∧
      (rescheduleAppointment store id req nowMs n).response =
        (rescheduleAppointment store id req nowMs n2).response) ∧
    (∀ store id reason nowMs b n b2 n2,
      (cancelAppointment store id reason nowMs b n).store =
        (cancelAppointment store id reason nowMs b2 n2).store ∧
      (cancelAppointment store id reason nowMs b n).response =
        (cancelAppointment store id reason nowMs b2 n2).response) ∧
    (∀ store id notes nowMs b b2,
      (completeAppointment store id notes nowMs b).store =
        (completeAppointment store id notes nowMs b2).store ∧
      (completeAppointment store id notes nowMs b).response =
        (completeAppointment store id notes nowMs b2).response) ∧
    (∀ store id nowMs b b2,
      (markNoShow store id nowMs b).store = (markNoShow store id nowMs b2).store ∧
      (markNoShow store id nowMs b).response = (markNoShow store id nowMs b2).response) ∧
    (∀ store req p d newId nowMs a,
      (bookAppointment store req p d newId nowMs false).response = Except.ok a →
      LogEntry.warnNotificationFailed ∈ (bookAppointment store req p d newId nowMs false).log) ∧
    (∀ store id reason nowMs r,
      (cancelAppointment store id reason nowMs false false).response = Except.ok r →
      LogEntry.warnBillingFailed ∈ (cancelAppointment store id reason nowMs false false).log ∧
      LogEntry.warnNotificationFailed ∈
        (cancelAppointment store id reason nowMs false false).log) := by
  refine ⟨?_, ?_, ?_, ?_, ?_, ?_, ?_⟩
  · intro store req p d newId nowMs n n2
    unfold bookAppointment
    cases hb : bookBody store req p d newId nowMs with
    | error e2 => simp
    | ok v => obtain ⟨s2, a⟩ := v; simp
  · intro store id req nowMs n n2
    unfold rescheduleAppointment
    cases hb : rescheduleBody store id req nowMs with
    | error e2 => simp
    | ok v => obtain ⟨s2, a⟩ := v; simp
  · intro store id reason nowMs b n b2 n2
    unfold cancelAppointment
    cases hb : cancelBody store id reason nowMs with
    | error e2 => simp
    | ok v => obtain ⟨s2, a, rp⟩ := v; simp
  · intro store id notes nowMs b b2
    unfold completeAppointment
    cases hb : completeBody store id notes nowMs with
    | error e2 => simp
    | ok v => obtain ⟨s2, a⟩ := v; simp
  · intro store id nowMs b b2
    unfold markNoShow
    cases hb : noShowBody store id nowMs with
    | error e2 => simp
    | ok v => obtain ⟨s2, a⟩ := v; simp
  · intro store req p d newId nowMs a h
    unfold bookAppointment at h ⊢
    cases hb : bookBody store req p d newId nowMs with
    | error e2 => rw [hb] at h; simp at h
    | ok v =>
      obtain ⟨s2, a2⟩ := v
      simp [sendNotificationLog]
  · intro store id reason nowMs r h
    unfold cancelAppointment at h ⊢
    cases hb : cancelBody store id reason nowMs with
    | error e2 => rw [hb] at h; simp at h
    | ok v =>
      obtain ⟨s2, a2, rp⟩ := v
      simp [sendNotificationLog, billingCallLog]

/-- Witness for C9_post_commit: a concrete successful cancel keeps the
same response when billing and notification both fail, and both
warnings appear in the log. -/
theorem C9_witness :
    (cancelAppointment [baseAppointment] 1 none 0 false false).response =
      (cancelAppointment [baseAppointment] 1 none 0 true true).response ∧
    LogEntry.warnBillingFailed ∈ (cancelAppointment [baseAppointment] 1 none 0 false false).log ∧
    LogEntry.warnNotificationFailed ∈
      (cancelAppointment [baseAppointment] 1 none 0 false false).log :=
  ⟨(C9_post_commit.2.2.1 [baseAppointment] 1 none 0 false false true true).2,
   C9_post_commit.2.2.2.2.2.2 [baseAppointment] 1 none 0
     (cancelUpdate none 0 baseAppointment,
       computeRefundPolicy (hoursDiff (toDateTimeMs 2 600) 0)) rfl⟩

/-- C10 confirmed: a successful no-show of a SCHEDULED appointment
changes only the status field (to NO_SHOW) and the updatedAt timestamp;
id, patient, doctor, date, times, reason, notes, reschedule count,
version and creation timestamp are all unchanged, and the table update
rewrites only rows with the given id. -/
theorem C10_noshow_frame (store : List Appointment) (id : Nat) (nowMs : Int)
    (a : Appointment) (s2 : List Appointment) (a2 : Appointment)
    (hfind : findAppointment store id = some a) (hstat : a.status = Status.SCHEDULED)
    (hok : noShowBody store id nowMs = Except.ok (s2, a2)) :
    a2.status = Status.NO_SHOW ∧ a2.updated_at = nowMs ∧
    a2.appointment_id = a.appointment_id ∧ a2.patient_id = a.patient_id ∧
    a2.doctor_id = a.doctor_id ∧ a2.appointment_date = a.appointment_date ∧
    a2.start_time = a.start_time ∧ a2.end_time = a.end_time ∧
    a2.reason = a.reason ∧ a2.notes = a.notes ∧
    a2.reschedule_count = a.reschedule_count ∧ a2.version = a.version ∧
    a2.created_at = a.created_at ∧
    s2 = updateWhereId store id (noShowUpdate nowMs) := by
  simp only [noShowBody, hfind] at hok
  rw [if_pos hstat] at hok
  simp only [Except.ok.injEq, Prod.mk.injEq] at hok
  obtain ⟨hs, ha⟩ := hok
  subst hs ha
  simp [noShowUpdate]

/-- Witness for C10_noshow_frame on the SCHEDULED fixture. -/
theorem C10_witness :
    (noShowUpdate 0 baseAppointment).status = Status.NO_SHOW ∧
    (noShowUpdate 0 baseAppointment).updated_at = 0 ∧
    (noShowUpdate 0 baseAppointment).appointment_id = baseAppointment.appointment_id ∧
    (noShowUpdate 0 baseAppointment).patient_id = baseAppointment.patient_id ∧
    (noShowUpdate 0 baseAppointment).doctor_id = baseAppointment.doctor_id ∧
    (noShowUpdate 0 baseAppointment).appointment_date = baseAppointment.appointment_date ∧
    (noShowUpdate 0 baseAppointment).start_time = baseAppointment.start_time ∧
    (noShowUpdate 0 baseAppointment).end_time = baseAppointment.end_time ∧
    (noShowUpdate 0 baseAppointment).reason = baseAppointment.reason ∧
    (noShowUpdate 0 baseAppointment).notes = baseAppointment.notes ∧
    (noShowUpdate 0 baseAppointment).reschedule_count = baseAppointment.reschedule_count ∧
    (noShowUpdate 0 baseAppointment).version = baseAppointment.version ∧
    (noShowUpdate 0 baseAppointment).created_at = baseAppointment.created_at ∧
    updateWhereId [baseAppointment] 1 (noShowUpdate 0) =
      updateWhereId [baseAppointment] 1 (noShowUpdate 0) :=
  C10_noshow_frame [baseAppointment] 1 0 baseAppointment
    (updateWhereId [baseAppointment] 1 (noShowUpdate 0)) (noShowUpdate 0 baseAppointment)
    rfl rfl rfl

end AppointmentService
